import Mathlib

/-!
Verification of the SandboxFusion dataset-adapter and client layer.

The Python sources (dataset adapters `aider_benchmark.py`, `live_code_bench.py`,
`mhpp.py` and the client SDK `client.py`) are shallowly embedded: pure string
manipulation is translated to Lean functions on `String` and `List Char`; the
per-test loop of the embedded LiveCodeBench grading harness is translated to a
recursive function in which the single genuinely external step (executing the
candidate code) is an oracle parameter; fallible code returns `Option` or
`Except`.  Where a relied-upon helper of the repository is not among the
supplied sources, its definition is modelled from the specification and marked
as such in its doc comment.
-/

/-- Python ASCII whitespace, the character set removed by str.strip(). -/
def isPyWs (c : Char) : Bool :=
  c = ' ' || c = '\t' || c = '\n' || c = '\r' || c = '\x0b' || c = '\x0c'

/-- Python str.strip(): remove leading and trailing whitespace. -/
def pyStrip (s : String) : String :=
  ⟨((s.data.dropWhile isPyWs).reverse.dropWhile isPyWs).reverse⟩

/-- Python s.split for the one-character separator used by the sources
(a newline): splitting on each newline, keeping empty segments. -/
def splitNL (s : List Char) : List (List Char) :=
  s.foldr
    (fun c acc =>
      match acc with
      | [] => [[c]]
      | seg :: rest => if c = '\n' then [] :: seg :: rest else (c :: seg) :: rest)
    [[]]

/-- Python s.split of a string on the newline separator. -/
def pySplitNL (s : String) : List String :=
  (splitNL s.data).map String.mk

/-- Python str.join with a newline separator. -/
def joinNL (xs : List String) : String :=
  match xs with
  | [] => ""
  | x :: rest => rest.foldl (fun a b => a ++ "\n" ++ b) x

/-- Python s.startswith(t), computed on the underlying character lists. -/
def pyStartsWith (s t : String) : Bool := t.data.isPrefixOf s.data

/-- Python s.endswith(t), computed on the underlying character lists. -/
def pyEndsWith (s t : String) : Bool := t.data.isSuffixOf s.data

/-- Python str.lower restricted to the ASCII text the sources compare. -/
def pyLower (s : String) : String := ⟨s.data.map Char.toLower⟩

/-- The starting indices at which `pat` occurs in `s` as a contiguous
substring, in increasing order. -/
def occs (pat s : List Char) : List Nat :=
  (List.range (s.length + 1)).filter (fun i => pat.isPrefixOf (s.drop i))

/-- Python `pat in s` on strings: whether `pat` occurs in `s` as a
contiguous substring. -/
def containsSub (s pat : List Char) : Bool :=
  !(occs pat s).isEmpty

/-- Fuel-driven worker for Python str.replace: replace the leftmost
occurrences of `pat` left to right, without overlap. -/
def pyReplaceFuel (repl pat : List Char) : Nat → List Char → List Char
  | 0, s => s
  | fuel + 1, s =>
    match s with
    | [] => []
    | c :: rest =>
      if pat.isPrefixOf (c :: rest) then
        repl ++ pyReplaceFuel repl pat fuel ((c :: rest).drop pat.length)
      else
        c :: pyReplaceFuel repl pat fuel rest

/-- Python s.replace(pat, repl): every non-overlapping occurrence of `pat`,
scanned left to right, is replaced by `repl`. -/
def pyReplace (s pat repl : String) : String :=
  ⟨pyReplaceFuel repl.data pat.data s.data.length s.data⟩

/-- Python `o or dflt` for an optional string `o`: None and the empty string
are falsy and yield the fallback. -/
def pyOrStr (o : Option String) (dflt : String) : String :=
  match o with
  | none => dflt
  | some s => if s = "" then dflt else s

/-- Python `o or dflt` for an optional number `o`: None and 0 are falsy and
yield the fallback. -/
def pyOrNat (o : Option Nat) (dflt : Nat) : Nat :=
  match o with
  | none => dflt
  | some v => if v = 0 then dflt else v

/-- The per-test-case timeout of the LiveCodeBench adapter
(live_code_bench.py line 1026): `request.config.run_timeout or 6`. -/
def lcb_effective_timeout (run_timeout : Option Nat) : Nat := pyOrNat run_timeout 6

/-- The aggregate sandbox timeout of the LiveCodeBench adapter
(live_code_bench.py line 1032): `min((timeout + 1) * test_cnt + 5, 315)`. -/
def lcb_total_timeout (run_timeout : Option Nat) (test_cnt : Nat) : Nat :=
  min ((lcb_effective_timeout run_timeout + 1) * test_cnt + 5) 315

/-- The sandbox timeout of the Aider adapter (aider_benchmark.py line 106):
`request.config.run_timeout or 60`. -/
def aider_run_timeout (run_timeout : Option Nat) : Nat := pyOrNat run_timeout 60

/-- The sandbox timeout of the MHPP adapter (mhpp.py line 102):
`request.config.run_timeout or 20`. -/
def mhpp_run_timeout (run_timeout : Option Nat) : Nat := pyOrNat run_timeout 20

/-- AiderBenchmarkDataset.get_num_problems: the hard-coded dictionary
`{aider_benchmark_v1: 133}` indexed by the dataset id; a missing key is a
lookup failure, modelled as `none`. -/
def aider_get_num_problems (dataset_id : String) : Option Nat :=
  if dataset_id = "aider_benchmark_v1" then some 133 else none

/-- LiveCodeBenchDataset.get_num_problems: the hard-coded dictionary
`{live_code_bench_v1: 511}` indexed by the dataset id. -/
def lcb_get_num_problems (dataset_id : String) : Option Nat :=
  if dataset_id = "live_code_bench_v1" then some 511 else none

/-- MHPPDataset.get_num_problems: the hard-coded dictionary
`{mhpp: 140}` indexed by the dataset id. -/
def mhpp_get_num_problems (dataset_id : String) : Option Nat :=
  if dataset_id = "mhpp" then some 140 else none

/-- Python s[-k:], the last k characters of a string: for k = 0 the slice
degenerates to the whole string (s[-0:] is s[0:]). -/
def pySliceLast (s : List Char) (k : Nat) : List Char :=
  if k = 0 then s else s.drop (s.length - k)

/-- truncatefn of the embedded harness (live_code_bench.py lines 75-80): keep
a string of at most `len` characters unchanged, otherwise emit the fixed
marker between the first len // 2 characters and the tail slice
s[-len // 2 :].  Python parses that slice index as (-len) // 2, whose floor
division makes the tail the last (len + 1) / 2 characters, one more than the
head for odd budgets; at len 0 the index degenerates to 0 and the slice is
the whole string, which pySliceLast reproduces at k = 0. -/
def truncatefn (s : String) (len : Nat := 300) : String :=
  if s.data.length ≤ len then s
  else
    ⟨s.data.take (len / 2) ++ "...(truncated) ...".data ++
      pySliceLast s.data ((len + 1) / 2)⟩

/-- The call-based diagnostic truncation of a raw input (lines 276-282): each
line of the stripped input is truncated to 300 divided by (newline count plus
one) characters, and the lines are re-joined with newlines. -/
def trunc_call_input (s : String) : String :=
  let tls := 300 / (s.data.count '\n' + 1)
  joinNL ((pySplitNL (pyStrip s)).map (fun l => truncatefn l tls))

/-- The two grading modes of the embedded harness. -/
inductive LCBMode
  | call_based
  | standard_input
deriving DecidableEq

/-- Oracle for one invocation of the candidate on one test case.  Executing
untrusted candidate code is external to the embedding, so a test case records
whether the invocation raised (with the text Python repr would produce for
the fault) or ran to completion, and in the latter case whether the
comparison logic accepted the produced output, whose serialized form is
`outputRepr`. -/
inductive CallOutcome
  | ok (passed : Bool) (outputRepr : String)
  | fault (exnRepr : String)
deriving DecidableEq

/-- One test case of the decoded input_output spec (an entry of the parallel
inputs/outputs sequences), paired with the oracle outcome of invoking the
candidate on it. -/
structure LCBTestCase where
  input : String
  expected : String
  outcome : CallOutcome
deriving DecidableEq

/-- An entry of the results sequence of run_test: Python appends the booleans
True and False as well as the sentinel integers -1 (fault while invoking the
candidate) and -2 (compilation or extraction failure). -/
inductive RVal
  | vbool (b : Bool)
  | vint (z : Int)
deriving DecidableEq

/-- The diagnostic dictionary returned by run_test alongside the results
sequence; absent keys are `none`. -/
structure HarnessDiag where
  error : Option String := none
  output : Option String := none
  error_code : Int
  error_message : String
  inputs : Option String := none
  expected : Option String := none
deriving DecidableEq

/-- Whether repr(e).lower() contains "timeoutexception" (lines 363 and 408). -/
def contains_timeout_exception (exnRepr : String) : Bool :=
  containsSub (pyLower exnRepr).data "timeoutexception".data

/-- Diagnostic truncation of the raw input (lines 276-286): per-line in
call-based mode, flat 300 characters in standard-input mode. -/
def trunc_input (mode : LCBMode) (s : String) : String :=
  match mode with
  | .call_based => trunc_call_input s
  | .standard_input => truncatefn s 300

/-- The fault diagnostic of run_test (lines 362-378 in call-based mode, lines
407-423 in standard-input mode): error code -3 with message "Time Limit
Exceeded" when the fault repr contains "timeoutexception" case-insensitively,
else -4 with "Runtime Error", both carrying the truncated input and expected
text. -/
def fault_diag (mode : LCBMode) (tc : LCBTestCase) (exnRepr : String) : HarnessDiag :=
  if contains_timeout_exception exnRepr then
    { error := some exnRepr, error_code := -3, error_message := "Time Limit Exceeded",
      inputs := some (trunc_input mode tc.input),
      expected := some (truncatefn tc.expected 200) }
  else
    { error := some exnRepr, error_code := -4, error_message := "Runtime Error",
      inputs := some (trunc_input mode tc.input),
      expected := some (truncatefn tc.expected 200) }

/-- The wrong-answer diagnostic of run_test (lines 345-352 and 652-660). -/
def wrong_answer_diag (mode : LCBMode) (tc : LCBTestCase) (outputRepr : String) : HarnessDiag :=
  { output := some (truncatefn outputRepr 200),
    expected := some (truncatefn tc.expected 200),
    inputs := some (trunc_input mode tc.input),
    error_code := -2, error_message := "Wrong Answer" }

/-- The per-test loop of run_test (lines 269-675) over the paired
inputs/outputs sequences, carrying the accumulated results sequence: a fault
while invoking the candidate appends -1 and returns the fault diagnostic at
once; a comparison failure appends False and returns the wrong-answer
diagnostic at once; an accepted test appends True and continues. -/
def run_test_loop (mode : LCBMode) :
    List LCBTestCase → List RVal → List RVal × Option HarnessDiag
  | [], acc => (acc, none)
  | tc :: rest, acc =>
    match tc.outcome with
    | .fault r => (acc ++ [RVal.vint (-1)], some (fault_diag mode tc r))
    | .ok passed out =>
      if passed then run_test_loop mode rest (acc ++ [RVal.vbool true])
      else (acc ++ [RVal.vbool false], some (wrong_answer_diag mode tc out))

/-- run_test of the embedded harness, with the module-construction step
oracled: `compileError = some e` corresponds to a fault raised while building
the runtime module (lines 180-189 and 242-251), which returns results [-2]
and the compilation-error diagnostic; otherwise the per-test loop runs with
an empty accumulator. -/
def run_test (compileError : Option String) (mode : LCBMode) (cases : List LCBTestCase) :
    List RVal × Option HarnessDiag :=
  match compileError with
  | some e =>
    ([RVal.vint (-2)],
     some { error := some e, error_code := -1, error_message := "Compilation Error" })
  | none => run_test_loop mode cases []

/-- First rewriting pass of the standard-input source transform (lines
209-217): every line that does not start with "from " or "import " is
prefixed with a tab; every line gets a trailing newline. -/
def lcb_first_pass (lines : List String) : List String :=
  lines.map (fun x =>
    if !(pyStartsWith x "from ") && !(pyStartsWith x "import ") then "\t" ++ x ++ "\n"
    else x ++ "\n")

/-- Second pass of the standard-input source transform (lines 219-231): the
first tab-prefixed line starts the wrapped function (stdin/stdout aliases and
the def line are emitted before it); after that, import lines get a tab
prefix and every other line is emitted unchanged. -/
def lcb_second_pass : List String → Bool → String
  | [], _ => ""
  | i :: rest, started =>
    if pyStartsWith i "\t" && !started then
      "stdin = sys.stdin\nstdout = sys.stdout\n" ++ "def code():\n" ++ i
        ++ lcb_second_pass rest true
    else if started && (pyStartsWith i "from " || pyStartsWith i "import ") then
      "\t" ++ i ++ lcb_second_pass rest started
    else
      i ++ lcb_second_pass rest started

/-- Both passes of the standard-input source transform applied to the split
candidate source (line 209 splits on newlines; the earlier main-guard strip
of lines 195-207 only rewrites sources ending in a main guard and is not part
of the rewriting passes modelled here). -/
def lcb_transform_lines (lines : List String) : String :=
  lcb_second_pass (lcb_first_pass lines) false

/-- The standard-input source transform on the raw candidate source. -/
def lcb_transform_stdin_source (test : String) : String :=
  lcb_transform_lines (pySplitNL test)

/-- AiderBenchmarkDataset.evaluate_single line 100:
full_code is test_code.replace applied to the insert marker and the
extracted code. -/
def aider_full_code (test_code code : String) : String :=
  pyReplace test_code "#<INSERT>" code

/-- Modelled from the spec: RunStatus of the shared data model (the types
module is not among the supplied sources): the overall verdict Success,
Failed or SandboxError. -/
inductive RunStatusC
  | Success
  | Failed
  | SandboxError
deriving DecidableEq

/-- Modelled from the spec: CommandRunStatus describing one executed command
(compile or run phase), an enumeration over Success, Failed and
TimeLimitExceeded. -/
inductive CommandRunStatusC
  | Success
  | Failed
  | TimeLimitExceeded
deriving DecidableEq

/-- Modelled from the spec: one phase result inside a RunCodeResponse,
holding a CommandRunStatus and an optional return code. -/
structure CommandResultC where
  status : CommandRunStatusC
  return_code : Option Int := none
deriving DecidableEq

/-- Modelled from the spec: RunCodeResponse with its overall status and the
optional compile and run phase results. -/
structure RunCodeResponseC where
  status : RunStatusC
  compile_result : Option CommandResultC := none
  run_result : Option CommandResultC := none
deriving DecidableEq

/-- Modelled from the spec: SummaryMapping with caller-supplied labels; the
optional fields fall back to Failed through Python `or` when unset or empty. -/
structure SummaryMappingC where
  Success : String
  Failed : String
  CompileTimeout : Option String := none
  CompileFailed : Option String := none
  RunTimeout : Option String := none
  RunFailed : Option String := none
deriving DecidableEq

/-- summary_run_code_result (client.py lines 80-105).  The raised
internal-consistency faults become Except.error carrying the static part of
the message text (the source interpolates the offending status into it). -/
def summary_run_code_result (result : RunCodeResponseC) (mapping : SummaryMappingC) :
    Except String String :=
  match result.compile_result, result.run_result with
  | none, none =>
    if result.status = RunStatusC.Success then Except.ok mapping.Success
    else if result.status = RunStatusC.Failed then Except.ok mapping.Failed
    else Except.error "unexpected result status"
  | some cr, none =>
    if cr.status = CommandRunStatusC.TimeLimitExceeded then
      Except.ok (pyOrStr mapping.CompileTimeout mapping.Failed)
    else
      match cr.return_code with
      | none => Except.error "invalid sandbox result: no return code with status"
      | some rc =>
        if rc ≠ 0 then Except.ok (pyOrStr mapping.CompileFailed mapping.Failed)
        else Except.error "invalid sandbox result: compiled succesfully with no run result"
  | _, some rr =>
    if rr.status = CommandRunStatusC.TimeLimitExceeded then
      Except.ok (pyOrStr mapping.RunTimeout mapping.Failed)
    else
      match rr.return_code with
      | none => Except.error "invalid sandbox result: no return code with status"
      | some rc =>
        if rc ≠ 0 then Except.ok (pyOrStr mapping.RunFailed mapping.Failed)
        else Except.ok mapping.Success

/-- Modelled from the spec: the client SubmitRequest (the models module is
not among the supplied sources); only the fields the client touches. -/
structure SubmitRequestC where
  id : Nat
  dataset : String
  completion : String
deriving DecidableEq

/-- Modelled from the spec: one graded test case inside an EvalResult. -/
structure EvalTestCaseC where
  passed : Bool
  exec_info : Option RunCodeResponseC := none
deriving DecidableEq

/-- Modelled from the spec: the client EvalResult; unset optional fields
default to absent. -/
structure EvalResultC where
  id : Nat
  accepted : Bool
  extracted_code : String
  full_code : Option String := none
  test_code : Option String := none
  tests : List EvalTestCaseC
deriving DecidableEq

/-- The retry discipline of configurable_retry around submit (client.py lines
48-62 and 139-149): the attempt outcomes are tried in order, the first
success is returned, and once all attempts are exhausted the final error is
re-raised unchanged by the retry_error_callback. -/
def submit_retry : List (Except String EvalResultC) → Except String EvalResultC
  | [] => Except.error "no attempts"
  | [a] => a
  | a :: b :: rest =>
    match a with
    | Except.ok r => Except.ok r
    | Except.error _ => submit_retry (b :: rest)

/-- submit_safe (client.py lines 152-157): delegate to submit and convert any
raised failure into a well-formed rejected EvalResult. -/
def submit_safe (request : SubmitRequestC) (attempts : List (Except String EvalResultC)) :
    EvalResultC :=
  match submit_retry attempts with
  | Except.ok r => r
  | Except.error _ =>
    { id := request.id, accepted := false, extracted_code := "", tests := [] }

/-- Whether an attempt outcome is a raised failure. -/
def isSubmitError : Except String EvalResultC → Bool
  | Except.error _ => true
  | Except.ok _ => false

/-- The extraction step of MHPPDataset.evaluate_single (mhpp.py lines 93-96),
parameterized by the extraction helper (sandbox.utils.extraction is not among
the supplied sources, so the helper, with any custom extraction logic already
applied, is an arbitrary function): extract from the completion, and if the
result strips to the empty string retry against content, a newline and the
completion concatenated. -/
def mhpp_extracted_code (helper : String → String) (content completion : String) : String :=
  let code := helper completion
  if pyStrip code = "" then helper (content ++ "\n" ++ completion) else code

/-- mhpp.py line 97: full_code is the extracted code, a newline and the full
test text concatenated. -/
def mhpp_full_code (helper : String → String) (content completion test : String) : String :=
  mhpp_extracted_code helper content completion ++ "\n" ++ test

/-- Whether an oracle outcome is an invocation that ran to completion and
whose output the comparison logic accepted. -/
def passesB : CallOutcome → Bool
  | CallOutcome.ok true _ => true
  | _ => false

/-- One tab-indented line per input line, concatenated: the text the second
rewriting pass emits for the lines after the wrapped function has started. -/
def concatTabbed (xs : List String) : String :=
  xs.foldr (fun l acc => "\t" ++ l ++ "\n" ++ acc) ""

/-- The fixed question marker of the LiveCodeBench prompt template. -/
def qMark : String := "### Question:\n"

/-- The bare format tag shared by both regex patterns of extract_question. -/
def fmtColon : String := "### Format:"

/-- The format marker searched by the question regex of extract_question
(line 953): two newlines followed by the bare format tag. -/
def fmMark : String := "\n\n" ++ fmtColon

/-- The format tag followed by a space, the anchor of the starter-code regex
of extract_question (line 954). -/
def fmtTag : String := fmtColon ++ " "

/-- The fixed sentence of the starter-code format block (line 967), after
the format tag. -/
def starterHeadTail : String :=
  "You will use the following starter code to write the solution to the problem and enclose your code within delimiters."

/-- The opening python fence preceded by a newline. -/
def bMark : String := "\n```python\n"

/-- The closing fence preceded by a newline. -/
def fenceClose : String := "\n```"

/-- The closing fence followed by a blank line, the tail pattern of the
starter-code regex of extract_question (line 954). -/
def cMark : String := fenceClose ++ "\n\n"

/-- The fixed answer cue appended to every few-shot prompt (line 970). -/
def answerCue : String := "\n\n### Answer: (use the provided format with backticks)\n"

/-- The starter-code format block of generate_fewshot_prompt (line 967). -/
def starterFormatBlock (starter_code : String) : String :=
  fmtTag ++ starterHeadTail ++ bMark ++ starter_code ++ fenceClose

/-- The generic stdin format block of generate_fewshot_prompt (line 969). -/
def genericFormatBlock : String :=
  "### Format: Read the inputs from stdin solve the problem and write the answer to stdout (do not directly test on the sample inputs). Enclose your code within delimiters as follows.\n```python\n```"

def FEWSHOT_PREFIX : String :=
  "### Instruction\nYou are an expert Python programmer. You will be given a question (problem specification) and will generate a correct Python program that matches the specification and passes all tests. You will NOT return anything except for the program.\n\n### Question:\nCalculate a+b\n\nInput\n\nTwo integer a,b (0<=a,b<=10)\n\nOutput\n\nOutput a+b\n\nSample Input\n\n1 2\n\nSample Output\n\n3\n\n### Format: Read the inputs from stdin solve the problem and write the answer to stdout (do not directly test on the sample inputs). Enclose your code within delimiters as follows.\n```python\n```\n\n### Answer: (use the provided format with backticks)\n```python\na,b = map(int, input().split())\nprint(a+b)\n```\n\n### Question:\nGiven an array of integers nums and an integer target, return indices of the two numbers such that they add up to target.\n\nYou may assume that each input would have exactly one solution, and you may not use the same element twice.\n\nYou can return the answer in any order.\n\n\n\nExample 1:\n\nInput: nums = [2,7,11,15], target = 9\nOutput: [0,1]\nExplanation: Because nums[0] + nums[1] == 9, we return [0, 1].\nExample 2:\n\nInput: nums = [3,2,4], target = 6\nOutput: [1,2]\nExample 3:\n\nInput: nums = [3,3], target = 6\nOutput: [0,1]\n\nConstraints:\n\n2 <= nums.length <= 10^4\n-10^9 <= nums[i] <= 10^9\n-10^9 <= target <= 10^9\nOnly one valid answer exists.\n\n### Format: You will use the following starter code to write the solution to the problem and enclose your code within delimiters.\n```python\nclass Solution:\n    def twoSum(self, nums: List[int], target: int) -> List[int]:\n\n```\n\n### Answer: (use the provided format with backticks)\n```python\nclass Solution:\n    def twoSum(self, nums: List[int], target: int) -> List[int]:\n        for i in range(len(nums)):\n            for j in range(i + 1, len(nums)):\n                if nums[i] + nums[j] == target:\n                    return [i, j]\n```\n\n### Question:\nLarry graduated this year and finally has a job. He\x27s making a lot of money, but somehow never seems to have enough. Larry has decided that he needs to grab hold of his financial portfolio and solve his financing problems. The first step is to figure out what\x27s been going on with his money. Larry has his bank account statements and wants to see how much money he has. Help Larry by writing a program to take his closing balance from each of the past twelve months and calculate his average account balance.\nInput\n\nThe input will be twelve lines. Each line will contain the closing balance of his bank account for a particular month. Each number will be positive and displayed to the penny. No dollar sign will be included.\nOutput\n\nThe output will be a single number, the average (mean) of the closing balances for the twelve months. It will be rounded to the nearest penny, preceded immediately by a dollar sign, and followed by the end-of-line. There will be no other spaces or characters in the output.\nSample Input\n\n100.00\n489.12\n12454.12\n1234.10\n823.05\n109.20\n5.27\n1542.25\n839.18\n83.99\n1295.01\n1.75\nSample Output\n\n$1581.42\n\n### Format: Read the inputs from stdin solve the problem and write the answer to stdout (do not directly test on the sample inputs). Enclose your code within delimiters as follows.\n```python\n```\n\n### Answer: (use the provided format with backticks)\n```python\nsum = 0\nfor i in range(12):\n    sum += float(input())\nprint(\"$%.2f\" % (sum / 12))\n```\n\n### Question:\n"

/-- generate_fewshot_prompt (live_code_bench.py lines 964-971): the fixed
three-example preamble (which itself ends with the question marker), the
question, a blank separator, the starter-code block when a starter code is
present (Python truthiness: an absent or empty starter code yields the
generic stdin block instead) and the fixed answer cue. -/
def generate_fewshot_prompt (question : String) (starter_code : Option String) : String :=
  FEWSHOT_PREFIX ++ question ++ "\n\n" ++
    (match starter_code with
     | some sc => if sc = "" then genericFormatBlock else starterFormatBlock sc
     | none => genericFormatBlock) ++
    answerCue

/-- Semantics of the first regex search of extract_question (line 953): the
DOTALL pattern question-marker (.*) format-marker is matched by re.search at
the earliest start position from which a match exists, with the greedy group
extending to the last occurrence of the format marker; the group is the text
strictly between the two. -/
def regexSpan1 (a c s : List Char) : Option (List Char) :=
  let cOccs := occs c s
  let validA := (occs a s).filter (fun i => cOccs.any (fun k => decide (i + a.length ≤ k)))
  validA.head?.bind fun i =>
    ((cOccs.filter (fun k => decide (i + a.length ≤ k))).getLast?).bind fun k =>
      some ((s.drop (i + a.length)).take (k - (i + a.length)))

/-- Semantics of the second regex search of extract_question (line 954): the
DOTALL pattern format-tag .* open-fence (.*) close-fence-blank is matched at
the earliest viable start; the first greedy gap picks the last open fence
still followed by a closing pattern, and the group extends to the last
occurrence of the closing pattern. -/
def regexSpan2 (a b c s : List Char) : Option (List Char) :=
  let cOccs := occs c s
  let validB := (occs b s).filter (fun j => cOccs.any (fun k => decide (j + b.length ≤ k)))
  let validA := (occs a s).filter (fun i => validB.any (fun j => decide (i + a.length ≤ j)))
  validA.head?.bind fun i =>
    ((validB.filter (fun j => decide (i + a.length ≤ j))).getLast?).bind fun j =>
      ((cOccs.filter (fun k => decide (j + b.length ≤ k))).getLast?).bind fun k =>
        some ((s.drop (j + b.length)).take (k - (j + b.length)))

/-- extract_question (live_code_bench.py lines 952-961): recover the question
span and the starter-code span through the two regex searches; a failed
search is the assertion failure, modelled as none; a recovered starter code
equal to the placeholder text means no starter code. -/
def extract_question (prompt : String) : Option (String × Option String) :=
  (regexSpan1 qMark.data fmMark.data prompt.data).bind fun q =>
    (regexSpan2 fmtTag.data bMark.data cMark.data prompt.data).bind fun sc =>
      some (⟨q⟩, if (⟨sc⟩ : String) = "# YOUR CODE HERE" then none else some (⟨sc⟩ : String))

/-- A zero-shot prompt built from a question and a starter code via the fixed
markers: the structure the spec describes for stored content (a question
section, then the starter-code format section whose fenced python block ends
with a blank line). -/
def lcb_content_prompt (question starter_code : String) : String :=
  qMark ++ question ++ "\n\n" ++ starterFormatBlock starter_code ++ "\n\n"

/-- The text following the canonical format-marker occurrence inside a built
prompt, with its first character removed: the question regex recovers the
question exactly when the format marker does not occur in this context. -/
def fmContext (starter_code : String) : String :=
  "\n" ++ fmtColon ++ " " ++ starterHeadTail ++ bMark ++ starter_code ++ fenceClose ++ "\n\n"

/-- The text following the canonical open-fence occurrence inside a built
prompt, with its first character removed: the starter-code regex recovers
the starter code exactly when the open fence does not occur in this
context. -/
def bContext (starter_code : String) : String :=
  "```python\n" ++ starter_code ++ fenceClose ++ "\n\n"

/-- C2: for every LiveCodeBench evaluate_single call the per-test timeout is
`config.run_timeout or 6` and the sandbox run_timeout equals
`min((timeout + 1) * test_cnt + 5, 315)`; in particular timeout 6 with 10
tests yields 75, and timeout 6 with 60 tests clamps 425 down to 315. -/
theorem lcb_timeout_budget :
    (∀ (run_timeout : Option Nat) (test_cnt : Nat),
      lcb_total_timeout run_timeout test_cnt =
        min ((lcb_effective_timeout run_timeout + 1) * test_cnt + 5) 315)
    ∧ lcb_effective_timeout none = 6
    ∧ (∀ t : Nat, lcb_effective_timeout (some (t + 1)) = t + 1)
    ∧ lcb_total_timeout (some 6) 10 = 75
    ∧ lcb_total_timeout none 10 = 75
    ∧ (6 + 1) * 60 + 5 = 425
    ∧ lcb_total_timeout (some 6) 60 = 315 := by
  refine ⟨fun _ _ => rfl, rfl, fun t => ?_, rfl, rfl, rfl, rfl⟩
  simp [lcb_effective_timeout, pyOrNat]

/-- C9: get_num_problems is a hard-coded constant for each of the three
adapters; it takes no table data at all, so it is independent of table
contents by construction. -/
theorem get_num_problems_constants :
    aider_get_num_problems "aider_benchmark_v1" = some 133
    ∧ lcb_get_num_problems "live_code_bench_v1" = some 511
    ∧ mhpp_get_num_problems "mhpp" = some 140 := by
  refine ⟨rfl, rfl, rfl⟩

/-- C10: a run_timeout of 0 is falsy in Python, so `x or default` treats it
exactly like an absent run_timeout in all three adapters: Aider falls back to
60, LiveCodeBench to 6 per test (and the same aggregate budget), MHPP to 20. -/
theorem run_timeout_zero_treated_as_absent :
    aider_run_timeout (some 0) = aider_run_timeout none
    ∧ aider_run_timeout none = 60
    ∧ lcb_effective_timeout (some 0) = lcb_effective_timeout none
    ∧ lcb_effective_timeout none = 6
    ∧ (∀ test_cnt : Nat,
        lcb_total_timeout (some 0) test_cnt = lcb_total_timeout none test_cnt)
    ∧ mhpp_run_timeout (some 0) = mhpp_run_timeout none
    ∧ mhpp_run_timeout none = 20 := by
  refine ⟨rfl, rfl, rfl, rfl, fun _ => rfl, rfl, rfl⟩

theorem submit_retry_all_errors (attempts : List (Except String EvalResultC))
    (h : ∀ a ∈ attempts, isSubmitError a = true) :
    ∃ e, submit_retry attempts = Except.error e := by
  induction attempts with
  | nil => exact ⟨"no attempts", rfl⟩
  | cons a rest ih =>
    cases rest with
    | nil =>
      have ha := h a (by simp)
      cases a with
      | error e => exact ⟨e, rfl⟩
      | ok r => simp [isSubmitError] at ha
    | cons b rest' =>
      have ha := h a (by simp)
      cases a with
      | error e =>
        simpa [submit_retry] using ih (fun x hx => h x (by simp [hx]))
      | ok r => simp [isSubmitError] at ha

/-- C7: submit_safe never raises: whenever every retry attempt of the
underlying submit call fails, it returns the rejected
EvalResult(id, accepted := false, extracted_code := "", tests := []), and
otherwise it returns the result of submit unchanged.  (The warning written to
the logger is a side effect outside the embedding.) -/
theorem submit_safe_never_raises (request : SubmitRequestC)
    (attempts : List (Except String EvalResultC))
    (h : ∀ a ∈ attempts, isSubmitError a = true) :
    submit_safe request attempts =
      { id := request.id, accepted := false, extracted_code := "", tests := [] }
    ∧ ∀ (attempts' : List (Except String EvalResultC)) (r : EvalResultC),
        submit_retry attempts' = Except.ok r → submit_safe request attempts' = r := by
  constructor
  · obtain ⟨e, he⟩ := submit_retry_all_errors attempts h
    simp [submit_safe, he]
  · intro attempts' r hr
    simp [submit_safe, hr]

theorem submit_safe_never_raises_witness :
    submit_safe ⟨7, "mhpp", "no code here"⟩ [Except.error "boom", Except.error "again"] =
      { id := 7, accepted := false, extracted_code := "", tests := [] } :=
  (submit_safe_never_raises ⟨7, "mhpp", "no code here"⟩
    [Except.error "boom", Except.error "again"] (by decide)).1

/-- C6: summary_run_code_result maps a zero run-phase return code to
mapping.Success, a run-phase TimeLimitExceeded with no RunTimeout override to
mapping.Failed, a nonzero compile-phase return code to mapping.CompileFailed
when provided and to mapping.Failed otherwise, and raises an
internal-consistency fault on a zero compile return code with no run phase. -/
theorem summary_run_code_result_classification :
    (∀ (st : RunStatusC) (oc : Option CommandResultC) (rr : CommandResultC)
        (m : SummaryMappingC),
      rr.status ≠ CommandRunStatusC.TimeLimitExceeded → rr.return_code = some 0 →
      summary_run_code_result ⟨st, oc, some rr⟩ m = Except.ok m.Success)
    ∧ (∀ (st : RunStatusC) (oc : Option CommandResultC) (rc : Option Int)
        (m : SummaryMappingC),
      m.RunTimeout = none →
      summary_run_code_result ⟨st, oc, some ⟨CommandRunStatusC.TimeLimitExceeded, rc⟩⟩ m =
        Except.ok m.Failed)
    ∧ (∀ (st : RunStatusC) (cs : CommandRunStatusC) (z : Int) (m : SummaryMappingC)
        (s : String),
      cs ≠ CommandRunStatusC.TimeLimitExceeded → z ≠ 0 → m.CompileFailed = some s → s ≠ "" →
      summary_run_code_result ⟨st, some ⟨cs, some z⟩, none⟩ m = Except.ok s)
    ∧ (∀ (st : RunStatusC) (cs : CommandRunStatusC) (z : Int) (m : SummaryMappingC),
      cs ≠ CommandRunStatusC.TimeLimitExceeded → z ≠ 0 → m.CompileFailed = none →
      summary_run_code_result ⟨st, some ⟨cs, some z⟩, none⟩ m = Except.ok m.Failed)
    ∧ (∀ (st : RunStatusC) (cs : CommandRunStatusC) (m : SummaryMappingC),
      cs ≠ CommandRunStatusC.TimeLimitExceeded →
      summary_run_code_result ⟨st, some ⟨cs, some 0⟩, none⟩ m =
        Except.error "invalid sandbox result: compiled succesfully with no run result") := by
  refine ⟨?_, ?_, ?_, ?_, ?_⟩ <;> intros <;> simp_all [summary_run_code_result, pyOrStr]

theorem summary_run_code_result_classification_witness :
    summary_run_code_result
        ⟨RunStatusC.Success, none, some ⟨CommandRunStatusC.Success, some 0⟩⟩
        ⟨"AC", "WA", none, some "CE", none, none⟩ = Except.ok "AC"
    ∧ summary_run_code_result
        ⟨RunStatusC.Failed, none, some ⟨CommandRunStatusC.TimeLimitExceeded, none⟩⟩
        ⟨"AC", "WA", none, some "CE", none, none⟩ = Except.ok "WA"
    ∧ summary_run_code_result
        ⟨RunStatusC.Failed, some ⟨CommandRunStatusC.Failed, some 1⟩, none⟩
        ⟨"AC", "WA", none, some "CE", none, none⟩ = Except.ok "CE"
    ∧ summary_run_code_result
        ⟨RunStatusC.Failed, some ⟨CommandRunStatusC.Failed, some 1⟩, none⟩
        ⟨"AC", "WA", none, none, none, none⟩ = Except.ok "WA"
    ∧ summary_run_code_result
        ⟨RunStatusC.Failed, some ⟨CommandRunStatusC.Failed, some 0⟩, none⟩
        ⟨"AC", "WA", none, some "CE", none, none⟩ =
        Except.error "invalid sandbox result: compiled succesfully with no run result" :=
  ⟨summary_run_code_result_classification.1 _ _ _ _ (by decide) rfl,
   summary_run_code_result_classification.2.1 _ _ _ _ rfl,
   summary_run_code_result_classification.2.2.1 _ _ _ _ _ (by decide) (by decide) rfl
     (by decide),
   summary_run_code_result_classification.2.2.2.1 _ _ _ _ (by decide) (by decide) rfl,
   summary_run_code_result_classification.2.2.2.2 _ _ _ (by decide)⟩

/-- C8: in MHPP evaluate_single, when extraction from the completion alone
strips to the empty string, extraction is retried against content, a newline
and the completion concatenated, and the retried result is what full_code is
built from (full_code is the extracted code, a newline and the full test
text); otherwise the first extraction is used. -/
theorem mhpp_extraction_retry (helper : String → String) (content completion test : String) :
    (pyStrip (helper completion) = "" →
      mhpp_extracted_code helper content completion = helper (content ++ "\n" ++ completion)
      ∧ mhpp_full_code helper content completion test =
          helper (content ++ "\n" ++ completion) ++ "\n" ++ test)
    ∧ (pyStrip (helper completion) ≠ "" →
      mhpp_full_code helper content completion test = helper completion ++ "\n" ++ test) := by
  constructor
  · intro h
    constructor <;> simp [mhpp_extracted_code, mhpp_full_code, h]
  · intro h
    simp [mhpp_extracted_code, mhpp_full_code, h]

theorem mhpp_extraction_retry_witness :
    mhpp_full_code (fun s => if pyStartsWith s "C" then "y = 2" else "")
        "C" "X" "assert f() == 2" = "y = 2" ++ "\n" ++ "assert f() == 2" :=
  ((mhpp_extraction_retry (fun s => if pyStartsWith s "C" then "y = 2" else "")
    "C" "X" "assert f() == 2").1 (by decide)).2

theorem pyReplaceFuel_no_occ (repl pat : List Char) :
    ∀ (fuel : Nat) (s : List Char), (∀ t, t <:+ s → pat.isPrefixOf t = false) →
    pyReplaceFuel repl pat fuel s = s := by
  intro fuel
  induction fuel with
  | zero => intro s h; rfl
  | succ n ih =>
    intro s h
    cases s with
    | nil => rfl
    | cons c rest =>
      have hc : pat.isPrefixOf (c :: rest) = false := h _ (List.suffix_refl _)
      simp only [pyReplaceFuel, hc, Bool.false_eq_true, if_false]
      rw [ih rest]
      intro t ht
      exact h t (ht.trans (List.suffix_cons c rest))

theorem pyReplaceFuel_single (repl pat post : List Char) (hpat : pat ≠ []) :
    ∀ (pre : List Char) (fuel : Nat), (pre ++ pat ++ post).length ≤ fuel →
    (∀ t, t <:+ pre ++ pat ++ post → pat.isPrefixOf t = true → t = pat ++ post) →
    pyReplaceFuel repl pat fuel (pre ++ pat ++ post) = pre ++ repl ++ post := by
  intro pre
  induction pre with
  | nil =>
    intro fuel hfuel h
    match fuel, pat, hpat with
    | 0, p :: ps, _ => simp at hfuel
    | n + 1, p :: ps, _ =>
      have hpref : (p :: ps).isPrefixOf (p :: (ps ++ post)) = true := by
        simp [ List.isPrefixOf_iff_prefix]
      have hdrop : List.drop (p :: ps).length (p :: (ps ++ post)) = post := by
        simp
      show pyReplaceFuel repl (p :: ps) (n + 1) (p :: (ps ++ post)) = [] ++ repl ++ post
      simp only [pyReplaceFuel, hpref, if_true]
      rw [hdrop, pyReplaceFuel_no_occ]
      · simp
      · intro t ht
        by_contra hb
        rw [Bool.not_eq_false] at hb
        have heq := h t (ht.trans (List.suffix_append (p :: ps) post)) hb
        subst heq
        have hlen := ht.length_le
        simp at hlen
        omega
  | cons c pre' ih =>
    intro fuel hfuel h
    match fuel with
    | 0 => simp at hfuel
    | n + 1 =>
      have hfalse : pat.isPrefixOf (c :: (pre' ++ pat ++ post)) = false := by
        by_contra hb
        rw [Bool.not_eq_false] at hb
        have heq := h (c :: (pre' ++ pat ++ post)) (List.suffix_refl _) hb
        have hlen := congrArg List.length heq
        simp at hlen
        omega
      have hlen' : (pre' ++ pat ++ post).length ≤ n := by
        simp at hfuel ⊢
        omega
      have hsub : ∀ t, t <:+ pre' ++ pat ++ post → pat.isPrefixOf t = true →
          t = pat ++ post :=
        fun t ht hp => h t (ht.trans (List.suffix_cons c (pre' ++ pat ++ post))) hp
      show pyReplaceFuel repl pat (n + 1) (c :: (pre' ++ pat ++ post)) =
        (c :: pre') ++ repl ++ post
      simp only [pyReplaceFuel, hfalse, Bool.false_eq_true, if_false]
      rw [ih n hlen' hsub]
      simp

/-- C5: for every Aider evaluate_single call, full_code is the stored
test code with the insert marker replaced by the extracted candidate code;
when the marker occurs exactly once the substitution is the single literal
substring substitution pre ++ code ++ post, and on the concrete example of
the claim the replacement gives exactly the expected program text. -/
theorem aider_full_code_insert (pre post : List Char) (code : String)
    (h : ∀ t ∈ (pre ++ "#<INSERT>".data ++ post).tails,
      "#<INSERT>".data.isPrefixOf t = true → t = "#<INSERT>".data ++ post) :
    aider_full_code ⟨pre ++ "#<INSERT>".data ++ post⟩ code = ⟨pre ++ code.data ++ post⟩
    ∧ aider_full_code "print(\x27before\x27);#<INSERT>;print(\x27after\x27)" "x=1" =
        "print(\x27before\x27);x=1;print(\x27after\x27)" := by
  constructor
  · apply String.ext
    show pyReplaceFuel code.data "#<INSERT>".data _ _ = _
    exact pyReplaceFuel_single code.data "#<INSERT>".data post (by decide) pre _
      (Nat.le_refl _) (fun t ht hp => h t ((List.mem_tails _ _).mpr ht) hp)
  · decide

theorem aider_full_code_insert_witness :
    aider_full_code
        ⟨"print(\x27before\x27);".data ++ "#<INSERT>".data ++ ";print(\x27after\x27)".data⟩
        "x=1" =
      ⟨"print(\x27before\x27);".data ++ "x=1".data ++ ";print(\x27after\x27)".data⟩ :=
  (aider_full_code_insert "print(\x27before\x27);".data ";print(\x27after\x27)".data "x=1"
    (by decide)).1

theorem run_test_loop_passing_front (mode : LCBMode) :
    ∀ (pre rest2 : List LCBTestCase) (acc : List RVal),
    (∀ p ∈ pre, passesB p.outcome = true) →
    run_test_loop mode (pre ++ rest2) acc =
      run_test_loop mode rest2 (acc ++ List.replicate pre.length (RVal.vbool true)) := by
  intro pre
  induction pre with
  | nil => intro rest2 acc _; simp
  | cons p pre' ih =>
    intro rest2 acc h
    have hp := h p (by simp)
    match hout : p.outcome with
    | CallOutcome.ok passed out =>
      match passed with
      | true =>
        show run_test_loop mode (p :: (pre' ++ rest2)) acc = _
        rw [run_test_loop, hout]
        simp only [if_true]
        rw [ih rest2 (acc ++ [RVal.vbool true]) (fun q hq => h q (by simp [hq]))]
        simp [List.replicate_succ]
      | false => rw [hout] at hp; simp [passesB] at hp
    | CallOutcome.fault r => rw [hout] at hp; simp [passesB] at hp

/-- C1: in both call-based and standard-input modes of the embedded run_test,
a fault raised while invoking the candidate on a test case aborts the whole
grading run at once: -1 is appended to the results sequence and the function
returns the diagnostic with error code -3 and message "Time Limit Exceeded"
when the fault repr contains "timeoutexception" case-insensitively, else
error code -4 and message "Runtime Error", both carrying the truncated input
and expected text; the returned value does not depend on the remaining test
cases, so no later test case is evaluated. -/
theorem lcb_run_test_fault_short_circuit (mode : LCBMode) (pre : List LCBTestCase)
    (tc : LCBTestCase) (rest : List LCBTestCase) (exnRepr : String)
    (hpre : ∀ p ∈ pre, passesB p.outcome = true)
    (htc : tc.outcome = CallOutcome.fault exnRepr) :
    run_test none mode (pre ++ tc :: rest) =
      (List.replicate pre.length (RVal.vbool true) ++ [RVal.vint (-1)],
       some { error := some exnRepr,
              error_code := if contains_timeout_exception exnRepr then -3 else -4,
              error_message := if contains_timeout_exception exnRepr then
                "Time Limit Exceeded" else "Runtime Error",
              inputs := some (trunc_input mode tc.input),
              expected := some (truncatefn tc.expected 200) })
    ∧ ∀ rest' : List LCBTestCase,
        run_test none mode (pre ++ tc :: rest) = run_test none mode (pre ++ tc :: rest') := by
  have hrun : ∀ r2 : List LCBTestCase, run_test none mode (pre ++ tc :: r2) =
      (List.replicate pre.length (RVal.vbool true) ++ [RVal.vint (-1)],
       some (fault_diag mode tc exnRepr)) := by
    intro r2
    show run_test_loop mode (pre ++ tc :: r2) [] = _
    rw [run_test_loop_passing_front mode pre (tc :: r2) [] hpre]
    rw [run_test_loop, htc]
    simp
  have hdiag : fault_diag mode tc exnRepr =
      { error := some exnRepr,
        error_code := if contains_timeout_exception exnRepr then -3 else -4,
        error_message := if contains_timeout_exception exnRepr then
          "Time Limit Exceeded" else "Runtime Error",
        inputs := some (trunc_input mode tc.input),
        expected := some (truncatefn tc.expected 200) } := by
    by_cases hc : contains_timeout_exception exnRepr = true
    · simp [fault_diag, hc]
    · rw [Bool.not_eq_true] at hc
      simp [fault_diag, hc]
  exact ⟨by rw [hrun rest, hdiag], fun rest' => by rw [hrun rest, hrun rest']⟩

theorem lcb_run_test_fault_short_circuit_witness :
    run_test none LCBMode.call_based
        [⟨"1 2", "3", CallOutcome.ok true "3"⟩,
         ⟨"4 5", "9", CallOutcome.fault "TimeoutException()"⟩,
         ⟨"6 7", "13", CallOutcome.ok true "13"⟩] =
      ([RVal.vbool true, RVal.vint (-1)],
       some { error := some "TimeoutException()",
              error_code := -3,
              error_message := "Time Limit Exceeded",
              inputs := some "4 5",
              expected := some "9" }) := by
  have h := (lcb_run_test_fault_short_circuit LCBMode.call_based
    [⟨"1 2", "3", CallOutcome.ok true "3"⟩]
    ⟨"4 5", "9", CallOutcome.fault "TimeoutException()"⟩
    [⟨"6 7", "13", CallOutcome.ok true "13"⟩]
    "TimeoutException()" (by decide) rfl).1
  exact h.trans (by decide)

theorem pyStartsWith_eq_true_iff (s t : String) :
    pyStartsWith s t = true ↔ t.data <+: s.data := by
  simp [pyStartsWith]

theorem pyStartsWith_tab (s : String) : pyStartsWith ("\t" ++ s) "\t" = true := by
  rw [pyStartsWith_eq_true_iff, String.data_append]
  exact List.prefix_append _ _

theorem pyStartsWith_tab_head_ne (s t : String) (c : Char) (rest : List Char)
    (ht : t.data = c :: rest) (hc : c ≠ '\t') : pyStartsWith ("\t" ++ s) t = false := by
  have hdata : ("\t" ++ s).data = '\t' :: s.data := by
    rw [String.data_append]
    rfl
  rw [pyStartsWith, hdata, ht, List.isPrefixOf_cons₂]
  simp [hc]

theorem pyStartsWith_append_left (x y t : String) (h : pyStartsWith x t = true) :
    pyStartsWith (x ++ y) t = true := by
  rw [pyStartsWith_eq_true_iff] at h ⊢
  rw [String.data_append]
  exact h.trans (List.prefix_append _ _)

theorem lcb_second_pass_after_start (rest : List String) :
    lcb_second_pass (lcb_first_pass rest) true = concatTabbed rest := by
  induction rest with
  | nil => rfl
  | cons l rest' ih =>
    by_cases hcond : (!(pyStartsWith l "from ") && !(pyStartsWith l "import ")) = true
    · have hfl : lcb_first_pass (l :: rest') =
          ("\t" ++ l ++ "\n") :: lcb_first_pass rest' := by
        simp only [lcb_first_pass, List.map_cons, hcond, if_true]
      have h1 : pyStartsWith ("\t" ++ l ++ "\n") "from " = false := by
        rw [String.append_assoc]
        exact pyStartsWith_tab_head_ne _ _ 'f' "rom ".data rfl (by decide)
      have h2 : pyStartsWith ("\t" ++ l ++ "\n") "import " = false := by
        rw [String.append_assoc]
        exact pyStartsWith_tab_head_ne _ _ 'i' "mport ".data rfl (by decide)
      show lcb_second_pass (lcb_first_pass (l :: rest')) true = _
      rw [hfl]
      simp only [lcb_second_pass, h1, h2, Bool.not_true, Bool.and_false, Bool.true_and,
        Bool.or_self, Bool.false_eq_true, if_false, ih]
      simp [concatTabbed]
    · rw [Bool.not_eq_true] at hcond
      have hfl : lcb_first_pass (l :: rest') = (l ++ "\n") :: lcb_first_pass rest' := by
        simp only [lcb_first_pass, List.map_cons, hcond, Bool.false_eq_true, if_false]
      have hdisj : pyStartsWith l "from " = true ∨ pyStartsWith l "import " = true := by
        by_cases ha : pyStartsWith l "from " = true
        · exact Or.inl ha
        · right
          rw [Bool.not_eq_true] at ha
          by_contra hb
          rw [Bool.not_eq_true] at hb
          rw [ha, hb] at hcond
          simp at hcond
      have h2 : (pyStartsWith (l ++ "\n") "from " || pyStartsWith (l ++ "\n") "import ")
          = true := by
        rcases hdisj with h | h
        · rw [pyStartsWith_append_left l "\n" _ h]
          simp
        · rw [pyStartsWith_append_left l "\n" _ h]
          simp
      show lcb_second_pass (lcb_first_pass (l :: rest')) true = _
      rw [hfl]
      simp only [lcb_second_pass, h2, Bool.not_true, Bool.and_false, Bool.true_and,
        Bool.false_eq_true, if_false, if_true, ih]
      simp [concatTabbed, String.append_assoc]

/-- C3 counterexample: on the candidate source built from the three lines
x=1 and import-os and y=2, the import line after the wrapped code function
has started is emitted with a one-tab indent inside the function, and the
transformed source contains no column-zero import line at all, refuting the
claim that such import lines are emitted at column zero. -/
theorem lcb_import_after_start_counterexample :
    lcb_transform_stdin_source "x=1\nimport os\ny=2" =
      "stdin = sys.stdin\nstdout = sys.stdout\ndef code():\n\tx=1\n\timport os\n\ty=2\n"
    ∧ containsSub (lcb_transform_stdin_source "x=1\nimport os\ny=2").data
        "\nimport os".data = false := by
  constructor
  · decide
  · decide

/-- C3 amended: in the standard-input source transform, once the wrapped code
function has started (its first line being any non-import line), every later
line, import or not, is emitted with a one-tab indent inside the function;
only import lines occurring before the function starts remain at column
zero. -/
theorem lcb_import_lines_indented_after_start (l0 : String) (rest : List String)
    (hf : pyStartsWith l0 "from " = false) (hi : pyStartsWith l0 "import " = false) :
    lcb_transform_lines (l0 :: rest) =
      "stdin = sys.stdin\nstdout = sys.stdout\n" ++ "def code():\n" ++
        ("\t" ++ l0 ++ "\n") ++ concatTabbed rest := by
  have hfl : lcb_first_pass (l0 :: rest) = ("\t" ++ l0 ++ "\n") :: lcb_first_pass rest := by
    simp only [lcb_first_pass, List.map_cons, hf, hi, Bool.not_false, Bool.and_self, if_true]
  show lcb_second_pass (lcb_first_pass (l0 :: rest)) false = _
  rw [hfl]
  have htab : pyStartsWith ("\t" ++ l0 ++ "\n") "\t" = true := by
    rw [String.append_assoc]
    exact pyStartsWith_tab _
  simp only [lcb_second_pass, htab, Bool.not_false, Bool.and_true, if_true,
    lcb_second_pass_after_start]

theorem lcb_import_lines_indented_after_start_witness :
    lcb_transform_lines ["x=1", "import os", "y=2"] =
      "stdin = sys.stdin\nstdout = sys.stdout\n" ++ "def code():\n" ++
        ("\t" ++ "x=1" ++ "\n") ++ concatTabbed ["import os", "y=2"] :=
  lcb_import_lines_indented_after_start "x=1" ["import os", "y=2"] (by decide) (by decide)

theorem mem_occs_iff (pat s : List Char) (i : Nat) :
    i ∈ occs pat s ↔ i ≤ s.length ∧ pat <+: s.drop i := by
  simp [occs, List.mem_filter, List.mem_range, Nat.lt_succ_iff]

theorem any_le_true {l : List Nat} {m lo : Nat} (hm : m ∈ l) (hlo : lo ≤ m) :
    l.any (fun k => decide (lo ≤ k)) = true := by
  rw [List.any_eq_true]
  exact ⟨m, hm, by simpa using hlo⟩

theorem head_filter_range (P : Nat → Bool) (m : Nat) (hP : P m = true)
    (hmin : ∀ k, k < m → P k = false) :
    ∀ n, m < n → ((List.range n).filter P).head? = some m := by
  intro n
  induction n with
  | zero => intro h; omega
  | succ n ih =>
    intro hm
    rcases Nat.lt_succ_iff_lt_or_eq.mp hm with h | h
    · rw [List.range_succ, List.filter_append, List.head?_append, ih h]
      rfl
    · subst h
      rw [List.range_succ, List.filter_append]
      have h1 : (List.range m).filter P = [] := by
        rw [List.filter_eq_nil_iff]
        intro k hk
        simp only [List.mem_range] at hk
        simp [hmin k hk]
      rw [h1]
      simp [hP]

theorem getLast_filter_range (P : Nat → Bool) (m : Nat) (hP : P m = true)
    (hmax : ∀ k, m < k → P k = false) :
    ∀ n, m < n → ((List.range n).filter P).getLast? = some m := by
  intro n
  induction n with
  | zero => intro h; omega
  | succ n ih =>
    intro hm
    rcases Nat.lt_succ_iff_lt_or_eq.mp hm with h | h
    · rw [List.range_succ, List.filter_append]
      have h2 : P n = false := hmax n h
      simp only [List.filter_cons, h2, Bool.false_eq_true, if_false, List.filter_nil,
        List.append_nil]
      exact ih h
    · subst h
      rw [List.range_succ, List.filter_append]
      have h1 : List.filter P [m] = [m] := by simp [hP]
      rw [h1, List.getLast?_concat]

theorem canonical_mem_occs (pat u v : List Char) :
    u.length ∈ occs pat (u ++ (pat ++ v)) := by
  rw [mem_occs_iff]
  constructor
  · simp
  · rw [List.drop_left]
    exact List.prefix_append _ _

theorem nolate_of_not_infix (pat u v : List Char)
    (hnt : ¬ pat <:+: (pat ++ v).drop 1) :
    ∀ k, u.length < k → pat.isPrefixOf ((u ++ (pat ++ v)).drop k) = false := by
  intro k hk
  rw [Bool.eq_false_iff]
  intro hb
  rw [ List.isPrefixOf_iff_prefix] at hb
  apply hnt
  have hdrop : (u ++ (pat ++ v)).drop k = ((pat ++ v).drop 1).drop (k - u.length - 1) := by
    rw [List.drop_append_eq_append_drop, List.drop_eq_nil_of_le (by omega), List.nil_append,
      List.drop_drop]
    congr 1
    omega
  rw [hdrop] at hb
  exact List.infix_iff_prefix_suffix.mpr ⟨_, hb, List.drop_suffix _ _⟩

theorem isPrefixOf_false_of_short (pat l : List Char) (h : l.length < pat.length) :
    pat.isPrefixOf l = false := by
  rw [Bool.eq_false_iff]
  intro hb
  rw [ List.isPrefixOf_iff_prefix] at hb
  have := hb.length_le
  omega

theorem occs_prefix_true_of_mem {pat s : List Char} {i : Nat} (h : i ∈ occs pat s) :
    pat.isPrefixOf (s.drop i) = true := by
  rw [mem_occs_iff] at h
  simpa [ List.isPrefixOf_iff_prefix] using h.2

theorem pyEndsWith_append (x y : String) : pyEndsWith (x ++ y) y = true := by
  simp only [pyEndsWith, String.data_append, List.isSuffixOf_iff_suffix]
  exact List.suffix_append _ _

theorem regexSpan1_eq (a c w v : List Char)
    (hnolate : ∀ k, a.length + w.length < k →
      c.isPrefixOf ((a ++ w ++ (c ++ v)).drop k) = false) :
    regexSpan1 a c (a ++ w ++ (c ++ v)) = some w := by
  have hcmem : a.length + w.length ∈ occs c (a ++ w ++ (c ++ v)) := by
    have h := canonical_mem_occs c (a ++ w) v
    simpa using h
  have haP : a.isPrefixOf ((a ++ w ++ (c ++ v)).drop 0) = true := by
    simp [ List.isPrefixOf_iff_prefix, List.append_assoc]
  have hhead : ((occs a (a ++ w ++ (c ++ v))).filter
      (fun i => (occs c (a ++ w ++ (c ++ v))).any
        (fun k => decide (i + a.length ≤ k)))).head? = some 0 := by
    rw [show occs a (a ++ w ++ (c ++ v)) =
      (List.range ((a ++ w ++ (c ++ v)).length + 1)).filter
        (fun i => a.isPrefixOf ((a ++ w ++ (c ++ v)).drop i)) from rfl]
    rw [List.filter_filter]
    apply head_filter_range _ 0 ?hP (fun k hk => absurd hk (by omega)) _ (by omega)
    case hP =>
      rw [Bool.and_eq_true]
      exact ⟨any_le_true hcmem (by omega), haP⟩
  have hlast : ((occs c (a ++ w ++ (c ++ v))).filter
      (fun k => decide (0 + a.length ≤ k))).getLast? = some (a.length + w.length) := by
    rw [show occs c (a ++ w ++ (c ++ v)) =
      (List.range ((a ++ w ++ (c ++ v)).length + 1)).filter
        (fun k => c.isPrefixOf ((a ++ w ++ (c ++ v)).drop k)) from rfl]
    rw [List.filter_filter]
    apply getLast_filter_range _ (a.length + w.length) ?hP ?hmax _ (by simp; omega)
    case hP =>
      rw [Bool.and_eq_true]
      exact ⟨by simp, occs_prefix_true_of_mem hcmem⟩
    case hmax =>
      intro k hk
      rw [hnolate k hk]
      simp
  have hfinal : (((a ++ w ++ (c ++ v)).drop (0 + a.length)).take
      (a.length + w.length - (0 + a.length))) = w := by
    rw [Nat.zero_add, List.append_assoc, List.drop_left]
    have h1 : a.length + w.length - a.length = w.length := by omega
    rw [h1, List.take_left]
  simp only [regexSpan1]
  rw [hhead, Option.some_bind, hlast, Option.some_bind, hfinal]

theorem regexSpan2_eq (a b c d x w : List Char) (hc : c ≠ [])
    (hb_nolate : ∀ k, d.length + a.length + x.length < k →
      b.isPrefixOf ((d ++ a ++ x ++ b ++ w ++ c).drop k) = false) :
    regexSpan2 a b c (d ++ a ++ x ++ b ++ w ++ c) = some w := by
  have hplen : (d ++ a ++ x ++ b ++ w ++ c).length =
      d.length + a.length + x.length + b.length + w.length + c.length := by
    simp only [List.length_append]
  have hBmem : d.length + a.length + x.length ∈ occs b (d ++ a ++ x ++ b ++ w ++ c) := by
    have h := canonical_mem_occs b (d ++ a ++ x) (w ++ c)
    rw [show (d ++ a ++ x).length = d.length + a.length + x.length from by
      simp only [List.length_append]] at h
    rw [show (d ++ a ++ x) ++ (b ++ (w ++ c)) = d ++ a ++ x ++ b ++ w ++ c from by
      simp only [List.append_assoc]] at h
    exact h
  have hCmem : d.length + a.length + x.length + b.length + w.length ∈
      occs c (d ++ a ++ x ++ b ++ w ++ c) := by
    have h := canonical_mem_occs c (d ++ a ++ x ++ b ++ w) []
    rw [show (d ++ a ++ x ++ b ++ w).length =
        d.length + a.length + x.length + b.length + w.length from by
      simp only [List.length_append]] at h
    rw [show (d ++ a ++ x ++ b ++ w) ++ (c ++ []) = d ++ a ++ x ++ b ++ w ++ c from by
      simp only [List.append_nil, List.append_assoc]] at h
    exact h
  have hAmem : d.length ∈ occs a (d ++ a ++ x ++ b ++ w ++ c) := by
    have h := canonical_mem_occs a d (x ++ b ++ w ++ c)
    rw [show d ++ (a ++ (x ++ b ++ w ++ c)) = d ++ a ++ x ++ b ++ w ++ c from by
      simp only [List.append_assoc]] at h
    exact h
  have hclen : 0 < c.length := List.length_pos.mpr hc
  simp only [regexSpan2]
  set VB := (occs b (d ++ a ++ x ++ b ++ w ++ c)).filter
    (fun j => (occs c (d ++ a ++ x ++ b ++ w ++ c)).any
      (fun k => decide (j + b.length ≤ k))) with hVBdef
  set L := (occs a (d ++ a ++ x ++ b ++ w ++ c)).filter
    (fun i => VB.any (fun j => decide (i + a.length ≤ j))) with hLdef
  have hBin : d.length + a.length + x.length ∈ VB := by
    rw [hVBdef]
    exact List.mem_filter.mpr ⟨hBmem, any_le_true hCmem (by omega)⟩
  have hVBle : ∀ j ∈ VB, j ≤ d.length + a.length + x.length := by
    intro j hj
    rw [hVBdef] at hj
    have hjo := (List.mem_filter.mp hj).1
    by_contra hgt
    push_neg at hgt
    have h1 := hb_nolate j hgt
    have h2 := occs_prefix_true_of_mem hjo
    rw [h1] at h2
    exact Bool.false_ne_true h2
  have hAin : d.length ∈ L := by
    rw [hLdef]
    exact List.mem_filter.mpr ⟨hAmem, any_le_true hBin (by omega)⟩
  have hne : L ≠ [] := List.ne_nil_of_mem hAin
  have hi0 : L.head hne ∈ L := List.head_mem hne
  have hi0le : L.head hne + a.length ≤ d.length + a.length + x.length := by
    have h2 := (List.mem_filter.mp hi0).2
    rw [List.any_eq_true] at h2
    obtain ⟨j, hj1, hj2⟩ := h2
    exact le_trans (by simpa using hj2) (hVBle j hj1)
  have hlastB : (VB.filter (fun j => decide (L.head hne + a.length ≤ j))).getLast? =
      some (d.length + a.length + x.length) := by
    rw [hVBdef]
    rw [show occs b (d ++ a ++ x ++ b ++ w ++ c) =
      (List.range ((d ++ a ++ x ++ b ++ w ++ c).length + 1)).filter
        (fun j => b.isPrefixOf ((d ++ a ++ x ++ b ++ w ++ c).drop j)) from rfl]
    rw [List.filter_filter, List.filter_filter]
    apply getLast_filter_range _ (d.length + a.length + x.length) ?hP ?hmax _ (by omega)
    case hP =>
      have e1 : decide (L.head hne + a.length ≤ d.length + a.length + x.length) = true := by
        simpa using hi0le
      have e2 : (occs c (d ++ a ++ x ++ b ++ w ++ c)).any
          (fun k => decide (d.length + a.length + x.length + b.length ≤ k)) = true :=
        any_le_true hCmem (by omega)
      have e3 : b.isPrefixOf ((d ++ a ++ x ++ b ++ w ++ c).drop
          (d.length + a.length + x.length)) = true := occs_prefix_true_of_mem hBmem
      simp only [e1, e2, e3, Bool.and_self]
    case hmax =>
      intro k hk
      have h1 := hb_nolate k hk
      simp only [List.append_assoc] at h1 ⊢
      simp [h1]
  have hlastC : ((occs c (d ++ a ++ x ++ b ++ w ++ c)).filter
      (fun k => decide (d.length + a.length + x.length + b.length ≤ k))).getLast? =
      some (d.length + a.length + x.length + b.length + w.length) := by
    rw [show occs c (d ++ a ++ x ++ b ++ w ++ c) =
      (List.range ((d ++ a ++ x ++ b ++ w ++ c).length + 1)).filter
        (fun k => c.isPrefixOf ((d ++ a ++ x ++ b ++ w ++ c).drop k)) from rfl]
    rw [List.filter_filter]
    apply getLast_filter_range _ (d.length + a.length + x.length + b.length + w.length)
      ?hP ?hmax _ (by omega)
    case hP =>
      have e1 : decide (d.length + a.length + x.length + b.length ≤
          d.length + a.length + x.length + b.length + w.length) = true := by
        simp
      have e2 : c.isPrefixOf ((d ++ a ++ x ++ b ++ w ++ c).drop
          (d.length + a.length + x.length + b.length + w.length)) = true :=
        occs_prefix_true_of_mem hCmem
      simp only [e1, e2, Bool.and_self]
    case hmax =>
      intro k hk
      have h1 : c.isPrefixOf ((d ++ a ++ x ++ b ++ w ++ c).drop k) = false := by
        apply isPrefixOf_false_of_short
        rw [List.length_drop]
        omega
      simp only [List.append_assoc] at h1 ⊢
      simp [h1]
  have hfinal : (((d ++ a ++ x ++ b ++ w ++ c).drop
        (d.length + a.length + x.length + b.length)).take
      (d.length + a.length + x.length + b.length + w.length -
        (d.length + a.length + x.length + b.length))) = w := by
    have hsplit : d ++ a ++ x ++ b ++ w ++ c = (d ++ a ++ x ++ b) ++ (w ++ c) :=
      List.append_assoc _ _ _
    rw [hsplit, List.drop_left' (by simp only [List.length_append]),
      List.take_left' (by omega)]
  rw [List.head?_eq_head hne, Option.some_bind, hlastB, Option.some_bind, hlastC,
    Option.some_bind, hfinal]

theorem regexSpan1_content (Q S : String)
    (hFM : ¬ fmMark.data <:+: (fmContext S).data) :
    regexSpan1 qMark.data fmMark.data (lcb_content_prompt Q S).data = some Q.data := by
  have hshape : (lcb_content_prompt Q S).data =
      qMark.data ++ Q.data ++ (fmMark.data ++
        (" " ++ starterHeadTail ++ bMark ++ S ++ fenceClose ++ "\n\n").data) := by
    simp only [lcb_content_prompt, starterFormatBlock, fmtTag, fmMark, String.data_append,
      List.append_assoc]
  rw [hshape]
  apply regexSpan1_eq
  intro k hk
  have hcons : fmMark.data ++ (" " ++ starterHeadTail ++ bMark ++ S ++ fenceClose
      ++ "\n\n").data = '\n' :: (("\n" ++ fmtColon).data ++
        (" " ++ starterHeadTail ++ bMark ++ S ++ fenceClose ++ "\n\n").data) := by
    rw [show fmMark.data = '\n' :: ("\n" ++ fmtColon).data from rfl]
    rfl
  have hctx : (fmMark.data ++ (" " ++ starterHeadTail ++ bMark ++ S ++ fenceClose
      ++ "\n\n").data).drop 1 = (fmContext S).data := by
    rw [hcons, List.drop_succ_cons, List.drop_zero]
    simp only [fmContext, String.data_append, List.append_assoc]
  have hnt : ¬ fmMark.data <:+: (fmMark.data ++ (" " ++ starterHeadTail ++ bMark ++ S
      ++ fenceClose ++ "\n\n").data).drop 1 := by
    rw [hctx]
    exact hFM
  have h := nolate_of_not_infix fmMark.data (qMark.data ++ Q.data) _ hnt k
    (by simp only [List.length_append]; omega)
  exact h

theorem regexSpan2_content (Q S : String)
    (hB : ¬ bMark.data <:+: (bContext S).data) :
    regexSpan2 fmtTag.data bMark.data cMark.data (lcb_content_prompt Q S).data =
      some S.data := by
  have hshape : (lcb_content_prompt Q S).data =
      (qMark ++ Q ++ "\n\n").data ++ fmtTag.data ++ starterHeadTail.data ++ bMark.data
        ++ S.data ++ cMark.data := by
    simp only [lcb_content_prompt, starterFormatBlock, cMark, String.data_append,
      List.append_assoc]
  rw [hshape]
  apply regexSpan2_eq _ _ _ _ _ _ (by decide)
  intro k hk
  have hcons : bMark.data ++ (S.data ++ cMark.data) = '\n' ::
      ("```python\n".data ++ (S.data ++ cMark.data)) := by
    rw [show bMark.data = '\n' :: "```python\n".data from rfl]
    rfl
  have hctx : (bMark.data ++ (S.data ++ cMark.data)).drop 1 = (bContext S).data := by
    rw [hcons, List.drop_succ_cons, List.drop_zero]
    simp only [bContext, cMark, String.data_append, List.append_assoc]
  have hnt : ¬ bMark.data <:+: (bMark.data ++ (S.data ++ cMark.data)).drop 1 := by
    rw [hctx]
    exact hB
  have h := nolate_of_not_infix bMark.data
    ((qMark ++ Q ++ "\n\n").data ++ fmtTag.data ++ starterHeadTail.data)
    (S.data ++ cMark.data) hnt k (by simp only [List.length_append] at hk ⊢; omega)
  simp only [List.append_assoc] at h ⊢
  exact h

set_option maxRecDepth 16384 in
/-- C4: LiveCodeBench few-shot templating round trip.  For a prompt built
from question Q and starter code S via the fixed question and format
markers, extract_question recovers exactly (Q, S), provided S does not
itself re-create the format-marker or open-fence patterns of the prompt
layout (the hypotheses on fmContext and bContext); when S is the literal
placeholder text the recovered starter code is absent; and every prompt that
generate_fewshot_prompt builds ends in the generic stdin-instruction block
or in the starter-code block containing exactly S, each followed by the
fixed answer cue. -/
theorem lcb_fewshot_round_trip (Q S : String)
    (hS0 : S ≠ "")
    (hSp : S ≠ "# YOUR CODE HERE")
    (hFM : ¬ fmMark.data <:+: (fmContext S).data)
    (hB : ¬ bMark.data <:+: (bContext S).data) :
    extract_question (lcb_content_prompt Q S) = some (Q, some S)
    ∧ extract_question (lcb_content_prompt Q "# YOUR CODE HERE") = some (Q, none)
    ∧ pyEndsWith (generate_fewshot_prompt Q none) (genericFormatBlock ++ answerCue) = true
    ∧ pyEndsWith (generate_fewshot_prompt Q (some S)) (starterFormatBlock S ++ answerCue)
        = true := by
  refine ⟨?_, ?_, ?_, ?_⟩
  · simp only [extract_question]
    rw [regexSpan1_content Q S hFM, regexSpan2_content Q S hB, Option.some_bind,
      Option.some_bind]
    have hQ : (⟨Q.data⟩ : String) = Q := rfl
    have hS : (⟨S.data⟩ : String) = S := rfl
    rw [hQ, hS, if_neg hSp]
  · simp only [extract_question]
    rw [regexSpan1_content Q "# YOUR CODE HERE" (by decide),
      regexSpan2_content Q "# YOUR CODE HERE" (by decide), Option.some_bind,
      Option.some_bind]
    have hQ : (⟨Q.data⟩ : String) = Q := rfl
    have hP : (⟨"# YOUR CODE HERE".data⟩ : String) = "# YOUR CODE HERE" := rfl
    rw [hQ, hP, if_pos rfl]
  · have hgen : generate_fewshot_prompt Q none =
        (FEWSHOT_PREFIX ++ Q ++ "\n\n") ++ (genericFormatBlock ++ answerCue) := by
      simp [generate_fewshot_prompt, String.append_assoc]
    rw [hgen]
    exact pyEndsWith_append _ _
  · have hgen : generate_fewshot_prompt Q (some S) =
        (FEWSHOT_PREFIX ++ Q ++ "\n\n") ++ (starterFormatBlock S ++ answerCue) := by
      simp only [generate_fewshot_prompt]
      rw [if_neg hS0]
      simp [String.append_assoc]
    rw [hgen]
    exact pyEndsWith_append _ _

set_option maxRecDepth 16384 in
theorem lcb_fewshot_round_trip_witness :
    extract_question (lcb_content_prompt "Add two numbers" "a = 1") =
      some ("Add two numbers", some "a = 1")
    ∧ extract_question (lcb_content_prompt "Add two numbers" "# YOUR CODE HERE") =
      some ("Add two numbers", none)
    ∧ pyEndsWith (generate_fewshot_prompt "Add two numbers" none)
        (genericFormatBlock ++ answerCue) = true
    ∧ pyEndsWith (generate_fewshot_prompt "Add two numbers" (some "a = 1"))
        (starterFormatBlock "a = 1" ++ answerCue) = true :=
  lcb_fewshot_round_trip "Add two numbers" "a = 1" (by decide) (by decide) (by decide)
    (by decide)
